import Mathlib

/-!
Shallow embedding of the ant-llm network-foraging simulation
(repository max-win-at/ant-llm, network-topology variant).

Sources embedded here:
  src/unnamed/part_002  config.js of the network-topology simulation
  src/js/ant.js         Ant state machine
  src/unnamed/part_001  PheromoneRegistry (second document in the file)
  src/js/environment.js NetworkTopology (forage classification)
  src/js/colony.js      Colony scheduler (first document in the file)
  src/js/llm/llm-orchestrator.js  external decision policy parsing

Real numbers of the JS code are modelled as rationals, except for the
exponential pheromone decay, which is modelled over the reals.
-/

namespace AntLLM

/-! Configuration constants (src/unnamed/part_002, CONFIG). -/

def INITIAL_COLONY_SIZE : ℕ := 20
def MAX_COLONY_SIZE : ℕ := 200
def ANT_MAX_ENERGY : ℚ := 100
def ANT_INITIAL_ENERGY : ℚ := 80
def ANT_ENERGY_DECAY_PER_TICK : ℚ := 15/100
def ANT_ENERGY_GAIN_ON_FOOD : ℚ := 30
def ANT_LATENCY_PENALTY_FACTOR : ℚ := 1/100
def PHEROMONE_DECAY_LAMBDA : ℚ := 1/10000
def PHEROMONE_INITIAL_INTENSITY : ℚ := 1
def PHEROMONE_REPELLENT_INTENSITY : ℚ := -2
def PHEROMONE_MAX_INTENSITY : ℚ := 10
def MAX_CONCURRENT_FETCHES : ℕ := 3
def FORAGE_COOLDOWN_TICKS : ℤ := 5
def REPRODUCTION_FOOD_THRESHOLD : ℕ := 5

/-! Agent state machine (src/js/ant.js). -/

inductive Role
  | scout
  | worker
deriving DecidableEq, Repr

inductive AntState
  | idle
  | fetching
  | returning
  | dead
deriving DecidableEq, Repr

/-- The food data packet an ant carries home (colony.js, `ant.carrying`). -/
structure FoodPacket where
  title : String
  nutrition : ℚ
  foodType : String
  payload : String
deriving DecidableEq, Repr

/-- The fields of the `Ant` class (ant.js constructor). -/
structure Ant where
  id : String
  energy : ℚ
  role : Role
  state : AntState
  currentUrl : Option String
  carrying : Option FoodPacket
  lastRTT : ℚ
  forageCooldown : ℤ
  visitedUrls : List String
  ticksAlive : ℕ
deriving DecidableEq, Repr

/-- `Ant.tick` (ant.js lines 55-65): a dead ant is unchanged; otherwise
`ticksAlive` is incremented, energy decays by the fixed constant, a
positive cooldown is decremented, and an ant at energy `≤ 0` dies. -/
def Ant.tick (a : Ant) : Ant :=
  if a.state = AntState.dead then a
  else
    let a1 : Ant :=
      { a with
        ticksAlive := a.ticksAlive + 1,
        energy := a.energy - ANT_ENERGY_DECAY_PER_TICK,
        forageCooldown :=
          if 0 < a.forageCooldown then a.forageCooldown - 1 else a.forageCooldown }
    if a1.energy ≤ 0 then { a1 with state := AntState.dead } else a1

/-- `Ant.applyLatencyPenalty` (ant.js lines 71-78). -/
def Ant.applyLatencyPenalty (a : Ant) (rttMs : ℚ) : Ant :=
  let a1 : Ant :=
    { a with lastRTT := rttMs, energy := a.energy - rttMs * ANT_LATENCY_PENALTY_FACTOR }
  if a1.energy ≤ 0 then { a1 with state := AntState.dead } else a1

/-- `Ant.canForage` (ant.js lines 83-89). -/
def Ant.canForage (a : Ant) : Bool :=
  decide (a.forageCooldown ≤ 0) && a.carrying.isNone && decide (a.state = AntState.idle)

/-- The record produced by `Ant.serialise` (ant.js lines 35-48). -/
structure SerializedAnt where
  id : String
  energy : ℚ
  role : Role
  state : AntState
  currentUrl : Option String
  carrying : Option FoodPacket
  lastRTT : ℚ
  forageCooldown : ℤ
  visitedUrls : List String
  ticksAlive : ℕ
deriving DecidableEq, Repr

/-- `Ant.serialise` (ant.js lines 35-48): the transient `fetching` state is
written out as `idle`; `visitedUrls` keeps the last 20 entries. -/
def Ant.serialise (a : Ant) : SerializedAnt :=
  { id := a.id,
    energy := a.energy,
    role := a.role,
    state := if a.state = AntState.fetching then AntState.idle else a.state,
    currentUrl := a.currentUrl,
    carrying := a.carrying,
    lastRTT := a.lastRTT,
    forageCooldown := a.forageCooldown,
    visitedUrls := (a.visitedUrls.reverse.take 20).reverse,
    ticksAlive := a.ticksAlive }

/-- The `Ant` constructor (ant.js lines 18-29) applied to a serialised
record. Every field of a serialised record is present, and the enum-valued
fields are non-empty strings in the source, so the JS falsy-defaulting
(`state.state || ...`, `state.energy ?? ...`) reduces to a plain copy. -/
def Ant.restore (s : SerializedAnt) : Ant :=
  { id := s.id,
    energy := s.energy,
    role := s.role,
    state := s.state,
    currentUrl := s.currentUrl,
    carrying := s.carrying,
    lastRTT := s.lastRTT,
    forageCooldown := s.forageCooldown,
    visitedUrls := s.visitedUrls,
    ticksAlive := s.ticksAlive }

/-! Pheromone registry (src/unnamed/part_001, second document:
class PheromoneRegistry). Timestamps (`Date.now()`) are injected as an
explicit `now` parameter. -/

/-- One registry record: `{ url, intensity, lastSeen, avgRTT, visits }`.
`avgRTT = none` models the non-finite JS sentinel (`Infinity`, written by
`depositRepellent`, and the NaN it would turn into under `deposit`). -/
structure PheromoneEntry where
  url : String
  intensity : ℚ
  lastSeen : ℚ
  avgRTT : Option ℚ
  visits : ℕ
deriving DecidableEq, Repr

def PheromoneRegistry : Type := String → Option PheromoneEntry

def emptyRegistry : PheromoneRegistry := fun _ => none

/-- `PheromoneRegistry.deposit` (part_001 lines 266-286): on an existing
record, add the fixed increment clamped to MAX, refresh `lastSeen`, fold the
observed RTT into the running mean over `visits + 1`, and increment
`visits`; on a missing record, create one. -/
def deposit (reg : PheromoneRegistry) (url : String) (rttMs : ℚ) (now : ℚ) :
    PheromoneRegistry :=
  match reg url with
  | some e =>
      let e2 : PheromoneEntry :=
        { e with
          intensity :=
            min (e.intensity + PHEROMONE_INITIAL_INTENSITY) PHEROMONE_MAX_INTENSITY,
          lastSeen := now,
          avgRTT :=
            match e.avgRTT with
            | some rac => some ((rac * (e.visits : ℚ) + rttMs) / ((e.visits : ℚ) + 1))
            | none => none,
          visits := e.visits + 1 }
      fun v => if v = url then some e2 else reg v
  | none =>
      let e2 : PheromoneEntry :=
        { url := url,
          intensity := PHEROMONE_INITIAL_INTENSITY,
          lastSeen := now,
          avgRTT := some rttMs,
          visits := 1 }
      fun v => if v = url then some e2 else reg v

/-- `PheromoneRegistry.depositRepellent` (part_001 lines 293-310): on an
existing record, add the fixed negative increment clamped to `-MAX` and
refresh `lastSeen`; on a missing record, create one with `visits = 0` and
the non-finite `avgRTT` sentinel. -/
def depositRepellent (reg : PheromoneRegistry) (url : String) (now : ℚ) :
    PheromoneRegistry :=
  match reg url with
  | some e =>
      let e2 : PheromoneEntry :=
        { e with
          intensity :=
            max (e.intensity + PHEROMONE_REPELLENT_INTENSITY) (-PHEROMONE_MAX_INTENSITY),
          lastSeen := now }
      fun v => if v = url then some e2 else reg v
  | none =>
      let e2 : PheromoneEntry :=
        { url := url,
          intensity := PHEROMONE_REPELLENT_INTENSITY,
          lastSeen := now,
          avgRTT := none,
          visits := 0 }
      fun v => if v = url then some e2 else reg v

/-- The decay law of `getEffectiveIntensity` in elapsed-time form:
`intensity * e^(-lambda * dt)`. -/
noncomputable def decayedIntensity (intensity : ℝ) (dt : ℝ) : ℝ :=
  intensity * Real.exp (-((PHEROMONE_DECAY_LAMBDA : ℚ) : ℝ) * dt)

/-- `PheromoneRegistry.getEffectiveIntensity` (part_001 lines 321-326):
0 for an unknown URL, otherwise `intensity * e^(-lambda * (now - lastSeen))`. -/
noncomputable def getEffectiveIntensity (reg : PheromoneRegistry) (url : String)
    (now : ℝ) : ℝ :=
  match reg url with
  | none => 0
  | some e =>
      (e.intensity : ℝ) *
        Real.exp (-((PHEROMONE_DECAY_LAMBDA : ℚ) : ℝ) * (now - (e.lastSeen : ℝ)))

/-! Topology catalog and forage-outcome classification
(src/js/environment.js, class NetworkTopology). -/

/-- An endpoint descriptor (config.js FOOD_SOURCES / DANGER_SOURCES merged
with their `kind` in `NetworkTopology._init`). Optional fields are absent
on the other kind of source. -/
structure NetNode where
  name : String
  url : String
  kind : String
  srcType : String
  nutritionMultiplier : Option ℚ
  damage : Option ℚ
  fallbackUrl : Option String
deriving DecidableEq, Repr

/-- JS `v || dflt` on an optional number: absent or `0` (falsy) yields the
default. -/
def jsOrNum (v : Option ℚ) (dflt : ℚ) : ℚ :=
  match v with
  | none => dflt
  | some x => if x = 0 then dflt else x

inductive DangerKind
  | predator
  | storm
  | timeout
  | camouflage
  | swamp
deriving DecidableEq, Repr

/-- A Forage Outcome as built in environment.js: flags plus the optional
success payload or danger kind. -/
structure ForageOutcome where
  success : Bool
  status : ℕ
  rtt : ℚ
  danger : Option DangerKind
  nutrition : Option ℚ
  title : Option String
  payload : Option String
  foodType : Option String
  url : Option String
deriving DecidableEq, Repr

/-- A thrown JS exception. `referenceErrorRawUrl` is the ReferenceError
raised when an outcome object literal reads the undefined identifier
`rawUrl` (environment.js lines 295, 304 and 318). -/
inductive JsError
  | referenceErrorRawUrl
deriving DecidableEq, Repr

/-- `NetworkTopology._forageDanger` (environment.js lines 278-321), given
the HTTP response status (`none` models a transport failure or timeout,
i.e. the catch branch). The 429 branch and the 2xx (swamp) branch build
their outcome from the in-scope `url`; the `status >= 500` branch, the
other-non-success branch and the catch branch build `url: rawUrl`, an
undefined identifier, so evaluating those object literals throws a
ReferenceError instead of returning an outcome. -/
def forageDanger (resp : Option ℕ) (rtt : ℚ) (url : String) :
    Except JsError ForageOutcome :=
  match resp with
  | none => Except.error JsError.referenceErrorRawUrl
  | some status =>
      if status = 429 then
        Except.ok
          { success := false, status := 429, rtt := rtt,
            danger := some DangerKind.predator, nutrition := none,
            title := none, payload := none, foodType := none, url := some url }
      else if 500 ≤ status then
        Except.error JsError.referenceErrorRawUrl
      else if ¬(200 ≤ status ∧ status ≤ 299) then
        Except.error JsError.referenceErrorRawUrl
      else
        Except.ok
          { success := false, status := 200, rtt := rtt,
            danger := some DangerKind.swamp, nutrition := none,
            title := none, payload := none, foodType := none, url := some url }

/-! Colony scheduler operations (src/js/colony.js, first document:
class Colony of the network-topology simulation). -/

/-- The `switch (result.danger)` of `Colony._handleDanger`
(colony.js lines 333-347): per-kind energy and registry effects. The
`swamp` kind has no switch case, so it falls through with no effect. -/
def dangerEnergyStep (a : Ant) (source : NetNode) (result : ForageOutcome)
    (reg : PheromoneRegistry) (now : ℚ) : Ant × PheromoneRegistry :=
  match result.danger with
  | some DangerKind.predator =>
      ({ a with energy := a.energy - jsOrNum source.damage 50 }, reg)
  | some DangerKind.storm =>
      ({ a with energy := a.energy - jsOrNum source.damage 30 },
       depositRepellent reg source.url now)
  | some DangerKind.timeout => (a.applyLatencyPenalty result.rtt, reg)
  | some DangerKind.camouflage => ({ a with energy := a.energy - 15 }, reg)
  | _ => (a, reg)

/-- `Colony._handleDanger` (colony.js lines 332-355): the per-kind effects,
then the common transition to `dead` (energy `≤ 0`) or back to `idle` with
the target cleared. -/
def handleDanger (a : Ant) (source : NetNode) (result : ForageOutcome)
    (reg : PheromoneRegistry) (now : ℚ) : Ant × PheromoneRegistry :=
  let step := dangerEnergyStep a source result reg now
  if step.1.energy ≤ 0 then ({ step.1 with state := AntState.dead }, step.2)
  else ({ step.1 with currentUrl := none, state := AntState.idle }, step.2)

/-- The synchronous prefix of `Colony._dispatchAntWithTarget`
(colony.js lines 264-267): mark the ant as fetching at its target and arm
the cooldown (the in-flight counter increment is tracked separately). -/
def dispatchMarkAnt (a : Ant) (targetUrl : String) : Ant :=
  { a with
    state := AntState.fetching,
    currentUrl := some targetUrl,
    forageCooldown := FORAGE_COOLDOWN_TICKS }

/-- The state produced when one dispatched forage settles. -/
structure SettleResult where
  ant : Ant
  reg : PheromoneRegistry
  activeDelta : ℤ

/-- The completion of `Colony._dispatchAntWithTarget`
(colony.js lines 269-302): on a successful outcome the ant picks up the
food packet, turns `returning`, pays the latency penalty and deposits
pheromone; on a failure outcome `_handleDanger` applies; a thrown error is
caught and the ant is set back to `idle` with no other effect. The
`finally` decrement of the in-flight counter is reported as `activeDelta`. -/
def settleForage (a : Ant) (target : NetNode)
    (res : Except JsError ForageOutcome) (reg : PheromoneRegistry) (now : ℚ) :
    SettleResult :=
  match res with
  | Except.error _ => ⟨{ a with state := AntState.idle }, reg, -1⟩
  | Except.ok r =>
      if r.success then
        let a1 : Ant :=
          { a with
            carrying := some
              { title := r.title.getD "",
                nutrition := r.nutrition.getD 0,
                foodType := r.foodType.getD "",
                payload := r.payload.getD "" },
            state := AntState.returning }
        let a2 := a1.applyLatencyPenalty r.rtt
        let a3 : Ant := { a2 with visitedUrls := a2.visitedUrls ++ [target.url] }
        ⟨a3, deposit reg target.url r.rtt now, -1⟩
      else
        let h := handleDanger a target r reg now
        ⟨h.1, h.2, -1⟩

/-- Colony-level state touched by delivery and reproduction. The cookie
jar is the list of stored food labels, oldest first (cookie-manager.js). -/
structure ColonyState where
  ants : List Ant
  food : List String
  totalFood : ℕ
  totalBirths : ℕ
  totalDeaths : ℕ
deriving DecidableEq, Repr

/-- `Colony._deliverFood` (colony.js lines 309-322): if the ant carries a
packet, store it, credit energy clamped at MAX and count it; in all cases
clear the payload and target and return to `idle`. -/
def deliverFood (c : ColonyState) (a : Ant) : ColonyState × Ant :=
  let c2 : ColonyState :=
    match a.carrying with
    | some pk => { c with food := c.food ++ [pk.title], totalFood := c.totalFood + 1 }
    | none => c
  let a2 : Ant :=
    match a.carrying with
    | some _ =>
        { a with
          energy := min (a.energy + ANT_ENERGY_GAIN_ON_FOOD) ANT_MAX_ENERGY,
          carrying := none, currentUrl := none, state := AntState.idle }
    | none => { a with carrying := none, currentUrl := none, state := AntState.idle }
  (c2, a2)

/-- The ant built by `new Ant(...)` inside `Colony._spawnAnt`
(colony.js lines 106-114), with the fresh random id and the role draw
(`Math.random() < 0.2`) injected. -/
def newbornAnt (freshId : String) (roleDraw : ℚ) (role : Role) : Ant :=
  { id := freshId,
    energy := ANT_INITIAL_ENERGY,
    role := if roleDraw < 1/5 then Role.scout else role,
    state := AntState.idle,
    currentUrl := none,
    carrying := none,
    lastRTT := 0,
    forageCooldown := 0,
    visitedUrls := [],
    ticksAlive := 0 }

/-- `Colony._spawnAnt` (colony.js lines 106-114): at or above the
population cap nothing happens; otherwise the newborn is appended and
`totalBirths` is incremented. -/
def spawnAnt (c : ColonyState) (freshId : String) (roleDraw : ℚ) (role : Role) :
    ColonyState :=
  if MAX_COLONY_SIZE ≤ c.ants.length then c
  else
    { c with
      ants := c.ants ++ [newbornAnt freshId roleDraw role],
      totalBirths := c.totalBirths + 1 }

/-- `Colony._tryReproduce` (colony.js lines 122-127): when the stored food
count reaches the threshold, consume the oldest item and attempt a spawn. -/
def tryReproduce (c : ColonyState) (freshId : String) (roleDraw : ℚ) :
    ColonyState :=
  if REPRODUCTION_FOOD_THRESHOLD ≤ c.food.length then
    spawnAnt { c with food := c.food.drop 1 } freshId roleDraw Role.worker
  else c

/-! The dispatch step of `Colony.tick` (colony.js lines 176-204). -/

/-- Lines 177-179: the eligible ants, truncated to the available
concurrency slots `max(0, MAX_CONCURRENT_FETCHES - activeFetches)`. -/
def selectToDispatch (ants : List Ant) (activeFetches : ℕ) : List Ant :=
  (ants.filter Ant.canForage).take
    (max 0 ((MAX_CONCURRENT_FETCHES : ℤ) - (activeFetches : ℤ))).toNat

/-- The effect of the dispatch step on the population: the first `k`
eligible ants are marked as fetching at their targets
(`_dispatchAntWithTarget` lines 264-266); every other ant is untouched. -/
def markDispatch (targetOf : Ant → String) : ℕ → List Ant → List Ant
  | _, [] => []
  | 0, as => as
  | Nat.succ k, a :: as =>
      if a.canForage then dispatchMarkAnt a (targetOf a) :: markDispatch targetOf k as
      else a :: markDispatch targetOf (Nat.succ k) as

/-! External decision policy (src/js/llm/llm-orchestrator.js) and its use
in `Colony.tick` (colony.js lines 183-204). -/

/-- One entry of the `decisions` array of the external response. -/
structure RawDecision where
  antId : String
  targetUrl : String
  reasoning : Option String
deriving DecidableEq, Repr

/-- `LLMOrchestrator._parseDecisions` (llm-orchestrator.js lines 195-250):
`none` models a JSON parse or format failure (the catch returns an empty
map); otherwise each entry is kept only when both fields are non-empty,
the ant id belongs to the submitted batch and the target URL is in the
food catalog; later entries for the same ant overwrite earlier ones. -/
def parseDecisions (parsed : Option (List RawDecision)) (idleAnts : List Ant)
    (validUrls : List String) : String → Option String :=
  match parsed with
  | none => fun _ => none
  | some ds =>
      ds.foldl
        (fun acc d =>
          if d.antId = "" ∨ d.targetUrl = "" then acc
          else if ¬ ∃ a ∈ idleAnts, a.id = d.antId then acc
          else if d.targetUrl ∉ validUrls then acc
          else fun x => if x = d.antId then some d.targetUrl else acc x)
        (fun _ => none)

/-- The LLM-mode dispatch of `Colony.tick` (lines 183-204): on a failure of
the external call every selected ant falls back to the local policy
(`_dispatchAnt`); otherwise each ant uses its validated decision when
present and falls back to the local policy when missing. `localChoice`
abstracts `_selectTarget`, whose weighted-random draw is injected. -/
def dispatchTargets (toDispatch : List Ant)
    (ext : Except String (Option (List RawDecision)))
    (validUrls : List String) (localChoice : Ant → Option String) :
    List (Ant × Option String) :=
  match ext with
  | Except.error _ => toDispatch.map (fun a => (a, localChoice a))
  | Except.ok parsed =>
      let decisions := parseDecisions parsed toDispatch validUrls
      toDispatch.map (fun a =>
        match decisions a.id with
        | some u => (a, some u)
        | none => (a, localChoice a))

/-! Concrete inputs used by witnesses and counterexamples. -/

/-- A freshly spawned idle worker (the defaults of the Ant constructor). -/
def baseAnt : Ant :=
  { id := "a0", energy := 80, role := Role.worker, state := AntState.idle,
    currentUrl := none, carrying := none, lastRTT := 0, forageCooldown := 0,
    visitedUrls := [], ticksAlive := 0 }

/-- DANGER_SOURCES[0] of config.js, merged with its kind. -/
def predatorNode : NetNode :=
  { name := "Ant-Lion (429)", url := "https://httpstat.us/429",
    kind := "danger", srcType := "predator", nutritionMultiplier := none,
    damage := some 50, fallbackUrl := none }

/-- The predator outcome `_forageDanger` builds for HTTP 429. -/
def outPredator : ForageOutcome :=
  { success := false, status := 429, rtt := 100,
    danger := some DangerKind.predator, nutrition := none, title := none,
    payload := none, foodType := none, url := some "https://httpstat.us/429" }

def antW40 : Ant := { baseAnt with energy := 40, state := AntState.fetching }

def antW90 : Ant := { baseAnt with energy := 90, state := AntState.fetching }

def antLow : Ant := { baseAnt with energy := 10, state := AntState.fetching }

def entryW : PheromoneEntry :=
  { url := "u", intensity := -2, lastSeen := 0, avgRTT := none, visits := 0 }

def regW : PheromoneRegistry := fun v => if v = "u" then some entryW else none

def antsW2 : List Ant := List.replicate 5 baseAnt

def colonyFullW : ColonyState :=
  { ants := List.replicate 200 baseAnt, food := ["f1", "f2", "f3", "f4", "f5"],
    totalFood := 7, totalBirths := 200, totalDeaths := 3 }

def antD1 : Ant := { baseAnt with id := "w1" }

def antD2 : Ant := { baseAnt with id := "w2" }

def rawDecisionW : RawDecision :=
  { antId := "w1", targetUrl := "https://food.example/a", reasoning := none }

/-! Theorems. -/

/-- Claim C3: for an agent with state other than dead, one tick decreases
energy by exactly the decay constant 0.15 (hence strictly), increments
`ticksAlive` by exactly 1, and moves the agent to `dead` exactly when the
resulting energy is `≤ 0`; a dead agent ticks to itself. -/
theorem C3_agent_tick (a : Ant) :
    (a.state ≠ AntState.dead →
      (Ant.tick a).energy = a.energy - (15/100 : ℚ) ∧
      (Ant.tick a).energy < a.energy ∧
      (Ant.tick a).ticksAlive = a.ticksAlive + 1 ∧
      ((Ant.tick a).energy ≤ 0 → (Ant.tick a).state = AntState.dead) ∧
      (0 < a.energy - (15/100 : ℚ) → (Ant.tick a).state = a.state)) ∧
    (a.state = AntState.dead → Ant.tick a = a) := by
  constructor
  · intro h
    simp only [Ant.tick, if_neg h]
    by_cases he : a.energy - ANT_ENERGY_DECAY_PER_TICK ≤ 0
    · rw [if_pos he]
      refine ⟨rfl, ?_, rfl, fun _ => rfl, fun h3 => ?_⟩
      · show a.energy - ANT_ENERGY_DECAY_PER_TICK < a.energy
        simp only [ANT_ENERGY_DECAY_PER_TICK]
        linarith
      · exfalso
        simp only [ANT_ENERGY_DECAY_PER_TICK] at he
        linarith
    · rw [if_neg he]
      refine ⟨rfl, ?_, rfl, fun hc => absurd hc he, fun _ => rfl⟩
      show a.energy - ANT_ENERGY_DECAY_PER_TICK < a.energy
      simp only [ANT_ENERGY_DECAY_PER_TICK]
      linarith
  · intro h
    simp only [Ant.tick, if_pos h]

/-- Witness for C3 at a concrete live agent: energy 80 falls to 79.85 and
`ticksAlive` rises from 0 to 1. -/
theorem C3_agent_tick_witness :
    (Ant.tick baseAnt).energy = baseAnt.energy - (15/100 : ℚ) ∧
    (Ant.tick baseAnt).ticksAlive = baseAnt.ticksAlive + 1 ∧
    (Ant.tick baseAnt).state = baseAnt.state := by
  have h := (C3_agent_tick baseAnt).1 (by simp [baseAnt])
  exact ⟨h.1, h.2.2.1, h.2.2.2.2 (by norm_num [baseAnt])⟩

/-- Claim C8: restoring a serialised agent yields the idle state whenever
the original state was the transient fetching state, and the original
state otherwise. -/
theorem C8_serialise_restore (a : Ant) :
    (Ant.restore (Ant.serialise a)).state =
      if a.state = AntState.fetching then AntState.idle else a.state := rfl

/-- Claim C5: two successive deposits on the same endpoint with elapsed
time 0, starting from no record, leave intensity
`min(2 * initial-increment, MAX)`, `visits = 2`, and `averageLatency` the
arithmetic mean of the two supplied latencies. -/
theorem C5_double_deposit (u : String) (l1 l2 now : ℚ) :
    deposit (deposit emptyRegistry u l1 now) u l2 now u =
      some { url := u,
             intensity := min (2 * PHEROMONE_INITIAL_INTENSITY) PHEROMONE_MAX_INTENSITY,
             lastSeen := now,
             avgRTT := some ((l1 + l2) / 2),
             visits := 2 } := by
  simp only [deposit, emptyRegistry, if_pos rfl]
  norm_num [PHEROMONE_INITIAL_INTENSITY, PHEROMONE_MAX_INTENSITY]

/-- Claim C4: the effective pheromone intensity of a stored record equals
`intensity * e^(-lambda * (now - lastSeen))`; its magnitude is
non-increasing as the elapsed time grows; and its sign equals the sign of
the stored intensity, so decay never crosses zero. -/
theorem C4_pheromone_decay (reg : PheromoneRegistry) (url : String)
    (e : PheromoneEntry) (now i dt dt1 dt2 : ℝ) :
    (reg url = some e →
      getEffectiveIntensity reg url now =
        decayedIntensity (e.intensity : ℝ) (now - (e.lastSeen : ℝ))) ∧
    (dt1 ≤ dt2 → |decayedIntensity i dt2| ≤ |decayedIntensity i dt1|) ∧
    (0 ≤ dt →
      (0 < i → 0 < decayedIntensity i dt) ∧
      (i < 0 → decayedIntensity i dt < 0) ∧
      (i = 0 → decayedIntensity i dt = 0)) := by
  refine ⟨?_, ?_, ?_⟩
  · intro h
    unfold getEffectiveIntensity
    rw [h]
    rfl
  · intro hle
    have hl : (0:ℝ) < ((PHEROMONE_DECAY_LAMBDA : ℚ) : ℝ) := by
      norm_num [PHEROMONE_DECAY_LAMBDA]
    simp only [decayedIntensity, abs_mul]
    have h1 : Real.exp (-((PHEROMONE_DECAY_LAMBDA : ℚ) : ℝ) * dt2) ≤
        Real.exp (-((PHEROMONE_DECAY_LAMBDA : ℚ) : ℝ) * dt1) := by
      apply Real.exp_le_exp.mpr
      have := mul_le_mul_of_nonneg_left hle hl.le
      linarith
    rw [abs_of_pos (Real.exp_pos _), abs_of_pos (Real.exp_pos _)]
    exact mul_le_mul_of_nonneg_left h1 (abs_nonneg i)
  · intro _
    simp only [decayedIntensity]
    exact ⟨fun hi => mul_pos hi (Real.exp_pos _),
           fun hi => mul_neg_of_neg_of_pos hi (Real.exp_pos _),
           fun hi => by simp [hi]⟩

/-- Witness for C4 at a concrete stored record (the repellent entry of
`regW`) and concrete elapsed times 0 and 1. -/
theorem C4_pheromone_decay_witness :
    getEffectiveIntensity regW "u" 5 =
      decayedIntensity ((entryW.intensity : ℚ) : ℝ) (5 - ((entryW.lastSeen : ℚ) : ℝ)) ∧
    |decayedIntensity (-2) 1| ≤ |decayedIntensity (-2) 0| ∧
    decayedIntensity (-2) 1 < 0 := by
  refine ⟨(C4_pheromone_decay regW "u" entryW 5 (-2) 1 0 1).1 ?_,
          (C4_pheromone_decay regW "u" entryW 5 (-2) 1 0 1).2.1 ?_,
          ((C4_pheromone_decay regW "u" entryW 5 (-2) 1 0 1).2.2 ?_).2.1 ?_⟩
  · simp [regW]
  · norm_num
  · norm_num
  · norm_num

/-- Claim C1 concerns `_forageDanger` on HTTP status `>= 500`
(environment.js lines 289-297) followed by `_handleDanger`
(colony.js lines 337-340). The code refutes the claim: the storm branch
builds its outcome from the undefined identifier `rawUrl`, so instead of a
well-defined storm outcome the forage throws a ReferenceError; the
scheduler catch (colony.js lines 297-299) then puts the ant back to `idle`
with its energy unchanged and the registry untouched — no fixed damage, no
`depositRepellent`. This theorem evaluates the code on every status
`500 + k`. -/
theorem C1_storm_raw_url_bug (k : ℕ) (rtt : ℚ) (u : String) (a : Ant)
    (t : NetNode) (reg : PheromoneRegistry) (now : ℚ) :
    forageDanger (some (500 + k)) rtt u =
      Except.error JsError.referenceErrorRawUrl ∧
    (settleForage a t (forageDanger (some (500 + k)) rtt u) reg now).ant =
      { a with state := AntState.idle } ∧
    (settleForage a t (forageDanger (some (500 + k)) rtt u) reg now).ant.energy =
      a.energy ∧
    (settleForage a t (forageDanger (some (500 + k)) rtt u) reg now).reg = reg := by
  have h1 : forageDanger (some (500 + k)) rtt u =
      Except.error JsError.referenceErrorRawUrl := by
    have h429 : ¬(500 + k = 429) := by omega
    have h500 : 500 ≤ 500 + k := by omega
    simp [forageDanger, h429, h500]
  refine ⟨h1, ?_, ?_, ?_⟩ <;> rw [h1] <;> rfl

/-- Claim C6: a danger outcome with HTTP status 429 is a well-formed
predator outcome; `_handleDanger` then reduces energy by the descriptor
damage (absent damage defaults to 50), kills the agent exactly when its
prior energy was at most that damage, and otherwise returns it to `idle`
with the current target cleared. -/
theorem C6_predator_danger (a : Ant) (src : NetNode) (r : ForageOutcome)
    (reg : PheromoneRegistry) (now rtt : ℚ) (u : String) :
    forageDanger (some 429) rtt u =
      Except.ok
        { success := false, status := 429, rtt := rtt,
          danger := some DangerKind.predator, nutrition := none, title := none,
          payload := none, foodType := none, url := some u } ∧
    (src.damage = none → jsOrNum src.damage 50 = 50) ∧
    (r.danger = some DangerKind.predator →
      (handleDanger a src r reg now).1.energy = a.energy - jsOrNum src.damage 50 ∧
      (a.energy ≤ jsOrNum src.damage 50 →
        (handleDanger a src r reg now).1.state = AntState.dead) ∧
      (jsOrNum src.damage 50 < a.energy →
        (handleDanger a src r reg now).1.state = AntState.idle ∧
        (handleDanger a src r reg now).1.currentUrl = none)) := by
  refine ⟨by simp [forageDanger], fun h => by simp [jsOrNum, h], fun hd => ?_⟩
  simp only [handleDanger, dangerEnergyStep, hd]
  by_cases he : a.energy - jsOrNum src.damage 50 ≤ 0
  · rw [if_pos he]
    exact ⟨rfl, fun _ => rfl, fun hlt => absurd he (by linarith)⟩
  · rw [if_neg he]
    exact ⟨rfl, fun hle => absurd (show a.energy - jsOrNum src.damage 50 ≤ 0 by linarith) he,
           fun _ => ⟨rfl, rfl⟩⟩

/-- Witness for C6: at energy 40 the predator hit (damage 50) kills; at
energy 90 the agent drops to idle with its target cleared. -/
theorem C6_predator_danger_witness :
    (handleDanger antW40 predatorNode outPredator emptyRegistry 0).1.energy =
      antW40.energy - jsOrNum predatorNode.damage 50 ∧
    (handleDanger antW40 predatorNode outPredator emptyRegistry 0).1.state =
      AntState.dead ∧
    (handleDanger antW90 predatorNode outPredator emptyRegistry 0).1.state =
      AntState.idle ∧
    (handleDanger antW90 predatorNode outPredator emptyRegistry 0).1.currentUrl =
      none := by
  have h1 := (C6_predator_danger antW40 predatorNode outPredator emptyRegistry 0 100 "x").2.2 rfl
  have h2 := (C6_predator_danger antW90 predatorNode outPredator emptyRegistry 0 100 "x").2.2 rfl
  have hd : jsOrNum predatorNode.damage 50 = 50 := by norm_num [predatorNode, jsOrNum]
  refine ⟨h1.1, h1.2.1 ?_, (h2.2.2 ?_).1, (h2.2.2 ?_).2⟩
  · rw [hd]; norm_num [antW40, baseAnt]
  · rw [hd]; norm_num [antW90, baseAnt]
  · rw [hd]; norm_num [antW90, baseAnt]

/-- Helper: `source.damage || dflt` is nonnegative when the default and
any present damage value are. -/
theorem jsOrNum_nonneg (v : Option ℚ) (dflt : ℚ) (hd : 0 ≤ dflt)
    (hv : ∀ d, v = some d → 0 ≤ d) : 0 ≤ jsOrNum v dflt := by
  cases v with
  | none => simpa [jsOrNum] using hd
  | some x =>
      simp only [jsOrNum]
      split_ifs with h
      · exact hd
      · exact hv x rfl

/-- Helper: the common transition of `_handleDanger` does not change the
energy computed by the switch. -/
theorem handleDanger_energy (a : Ant) (src : NetNode) (r : ForageOutcome)
    (reg : PheromoneRegistry) (now : ℚ) :
    (handleDanger a src r reg now).1.energy =
      (dangerEnergyStep a src r reg now).1.energy := by
  simp only [handleDanger]
  split_ifs <;> rfl

/-- Counterexample to claim C9 as stated: a predator hit at energy 10 with
the catalog damage 50 leaves energy at -40, outside [0, MAX_ENERGY]. -/
theorem C9_energy_bounds_counterexample :
    ¬(0 ≤ (handleDanger antLow predatorNode outPredator emptyRegistry 0).1.energy) := by
  have h : (handleDanger antLow predatorNode outPredator emptyRegistry 0).1.energy =
      (-40 : ℚ) := by
    rw [handleDanger_energy]
    norm_num [dangerEnergyStep, outPredator, antLow, baseAnt, predatorNode, jsOrNum]
  rw [h]
  norm_num

/-- Claim C9, amended: after per-tick decay, latency penalty, danger
effects and food delivery, energy never exceeds MAX_ENERGY (given
nonnegative latencies and descriptor damages); the lower bound 0 is not
maintained, but every operation that leaves energy `≤ 0` also marks the
agent dead. -/
theorem C9_energy_bounds_amended (a : Ant) (rtt : ℚ) (src : NetNode)
    (r : ForageOutcome) (reg : PheromoneRegistry) (now : ℚ) (c : ColonyState) :
    (a.energy ≤ ANT_MAX_ENERGY → (Ant.tick a).energy ≤ ANT_MAX_ENERGY) ∧
    ((Ant.tick a).energy ≤ 0 → (Ant.tick a).state = AntState.dead) ∧
    (0 ≤ rtt → a.energy ≤ ANT_MAX_ENERGY →
      (a.applyLatencyPenalty rtt).energy ≤ ANT_MAX_ENERGY) ∧
    ((a.applyLatencyPenalty rtt).energy ≤ 0 →
      (a.applyLatencyPenalty rtt).state = AntState.dead) ∧
    (a.energy ≤ ANT_MAX_ENERGY → 0 ≤ r.rtt → (∀ d, src.damage = some d → 0 ≤ d) →
      (handleDanger a src r reg now).1.energy ≤ ANT_MAX_ENERGY) ∧
    ((handleDanger a src r reg now).1.energy ≤ 0 →
      (handleDanger a src r reg now).1.state = AntState.dead) ∧
    (a.energy ≤ ANT_MAX_ENERGY → (deliverFood c a).2.energy ≤ ANT_MAX_ENERGY) := by
  refine ⟨?_, ?_, ?_, ?_, ?_, ?_, ?_⟩
  · intro hle
    by_cases hs : a.state = AntState.dead
    · simpa [Ant.tick, hs] using hle
    · simp only [Ant.tick, if_neg hs]
      by_cases he : a.energy - ANT_ENERGY_DECAY_PER_TICK ≤ 0
      · rw [if_pos he]
        show a.energy - ANT_ENERGY_DECAY_PER_TICK ≤ ANT_MAX_ENERGY
        simp only [ANT_ENERGY_DECAY_PER_TICK]
        linarith
      · rw [if_neg he]
        show a.energy - ANT_ENERGY_DECAY_PER_TICK ≤ ANT_MAX_ENERGY
        simp only [ANT_ENERGY_DECAY_PER_TICK]
        linarith
  · by_cases hs : a.state = AntState.dead
    · simp [Ant.tick, hs]
    · simp only [Ant.tick, if_neg hs]
      by_cases he : a.energy - ANT_ENERGY_DECAY_PER_TICK ≤ 0
      · rw [if_pos he]
        exact fun _ => rfl
      · rw [if_neg he]
        exact fun hc => absurd hc he
  · intro hr hle
    simp only [Ant.applyLatencyPenalty]
    have hpen : 0 ≤ rtt * ANT_LATENCY_PENALTY_FACTOR :=
      mul_nonneg hr (by norm_num [ANT_LATENCY_PENALTY_FACTOR])
    by_cases he : a.energy - rtt * ANT_LATENCY_PENALTY_FACTOR ≤ 0
    · rw [if_pos he]
      show a.energy - rtt * ANT_LATENCY_PENALTY_FACTOR ≤ ANT_MAX_ENERGY
      linarith
    · rw [if_neg he]
      show a.energy - rtt * ANT_LATENCY_PENALTY_FACTOR ≤ ANT_MAX_ENERGY
      linarith
  · simp only [Ant.applyLatencyPenalty]
    by_cases he : a.energy - rtt * ANT_LATENCY_PENALTY_FACTOR ≤ 0
    · rw [if_pos he]
      exact fun _ => rfl
    · rw [if_neg he]
      exact fun hc => absurd hc he
  · intro hle hr hv
    rw [handleDanger_energy]
    have h50 : 0 ≤ jsOrNum src.damage 50 := jsOrNum_nonneg _ _ (by norm_num) hv
    have h30 : 0 ≤ jsOrNum src.damage 30 := jsOrNum_nonneg _ _ (by norm_num) hv
    have hpen : 0 ≤ r.rtt * ANT_LATENCY_PENALTY_FACTOR :=
      mul_nonneg hr (by norm_num [ANT_LATENCY_PENALTY_FACTOR])
    rcases hdang : r.danger with _ | k
    · simpa [dangerEnergyStep, hdang] using hle
    · cases k
      · simp only [dangerEnergyStep, hdang]
        show a.energy - jsOrNum src.damage 50 ≤ ANT_MAX_ENERGY
        linarith
      · simp only [dangerEnergyStep, hdang]
        show a.energy - jsOrNum src.damage 30 ≤ ANT_MAX_ENERGY
        linarith
      · simp only [dangerEnergyStep, hdang, Ant.applyLatencyPenalty]
        by_cases he : a.energy - r.rtt * ANT_LATENCY_PENALTY_FACTOR ≤ 0
        · rw [if_pos he]
          show a.energy - r.rtt * ANT_LATENCY_PENALTY_FACTOR ≤ ANT_MAX_ENERGY
          linarith
        · rw [if_neg he]
          show a.energy - r.rtt * ANT_LATENCY_PENALTY_FACTOR ≤ ANT_MAX_ENERGY
          linarith
      · simp only [dangerEnergyStep, hdang]
        show a.energy - 15 ≤ ANT_MAX_ENERGY
        linarith
      · simpa [dangerEnergyStep, hdang] using hle
  · simp only [handleDanger]
    by_cases he : (dangerEnergyStep a src r reg now).1.energy ≤ 0
    · rw [if_pos he]
      exact fun _ => rfl
    · rw [if_neg he]
      exact fun hc => absurd hc he
  · intro hle
    cases hc : a.carrying with
    | none => simpa [deliverFood, hc] using hle
    | some pk =>
        simp only [deliverFood, hc]
        exact min_le_right _ _

/-- Witness for C9 (amended) at a live agent with energy 80, latency 100
and the catalog predator descriptor. -/
theorem C9_energy_bounds_amended_witness :
    (Ant.tick baseAnt).energy ≤ ANT_MAX_ENERGY ∧
    (baseAnt.applyLatencyPenalty 100).energy ≤ ANT_MAX_ENERGY ∧
    (handleDanger baseAnt predatorNode outPredator emptyRegistry 0).1.energy ≤
      ANT_MAX_ENERGY := by
  have h := C9_energy_bounds_amended baseAnt 100 predatorNode outPredator
    emptyRegistry 0 ⟨[], [], 0, 0, 0⟩
  refine ⟨h.1 ?_, h.2.2.1 ?_ ?_, h.2.2.2.2.1 ?_ ?_ ?_⟩
  · norm_num [baseAnt, ANT_MAX_ENERGY]
  · norm_num
  · norm_num [baseAnt, ANT_MAX_ENERGY]
  · norm_num [baseAnt, ANT_MAX_ENERGY]
  · norm_num [outPredator]
  · intro d hd
    simp only [predatorNode] at hd
    injection hd with hd
    rw [← hd]
    norm_num

/-- Claim C10: with the stored-food count at the reproduction threshold but
the population at the cap, the reproduction step still consumes exactly one
food unit while the population and `totalBirths` are unchanged. -/
theorem C10_reproduce_at_cap (c : ColonyState) (freshId : String) (roleDraw : ℚ)
    (hfood : REPRODUCTION_FOOD_THRESHOLD ≤ c.food.length)
    (hcap : MAX_COLONY_SIZE ≤ c.ants.length) :
    (tryReproduce c freshId roleDraw).food.length = c.food.length - 1 ∧
    (tryReproduce c freshId roleDraw).ants = c.ants ∧
    (tryReproduce c freshId roleDraw).totalBirths = c.totalBirths := by
  simp only [tryReproduce, if_pos hfood, spawnAnt]
  rw [if_pos hcap]
  exact ⟨by simp, rfl, rfl⟩

/-- Witness for C10: a colony of 200 agents holding 5 food units. -/
theorem C10_reproduce_at_cap_witness :
    (tryReproduce colonyFullW "n1" (1/2)).food.length =
      colonyFullW.food.length - 1 ∧
    (tryReproduce colonyFullW "n1" (1/2)).ants = colonyFullW.ants ∧
    (tryReproduce colonyFullW "n1" (1/2)).totalBirths = colonyFullW.totalBirths :=
  C10_reproduce_at_cap colonyFullW "n1" (1/2)
    (by simp only [colonyFullW, REPRODUCTION_FOOD_THRESHOLD]; norm_num)
    (by simp only [colonyFullW, MAX_COLONY_SIZE, List.length_replicate]; norm_num)

/-- Helper: an ant just marked as fetching is no longer eligible. -/
theorem canForage_dispatchMark (a : Ant) (t : String) :
    (dispatchMarkAnt a t).canForage = false := by
  simp [dispatchMarkAnt, Ant.canForage]

/-- Helper: marking the first `k` eligible ants removes exactly
`min k (eligible count)` ants from eligibility. -/
theorem markDispatch_countP (f : Ant → String) (k : ℕ) (as : List Ant) :
    (markDispatch f k as).countP Ant.canForage =
      as.countP Ant.canForage - min k (as.countP Ant.canForage) := by
  induction as generalizing k with
  | nil => cases k <;> simp [markDispatch]
  | cons a as ih =>
      cases k with
      | zero => simp [markDispatch]
      | succ k =>
          by_cases h : a.canForage
          · simp only [markDispatch, h, if_true, List.countP_cons,
              canForage_dispatchMark, ih k]
            have hmin : min (k + 1) (as.countP Ant.canForage + 1) =
                min k (as.countP Ant.canForage) + 1 := Nat.succ_min_succ k _
            simp [h, hmin]
          · simp only [markDispatch, h, if_false, List.countP_cons]
            simp [h, ih (k + 1)]

/-- Helper: every ant still eligible after the marking pass is one of the
original, untouched ants. -/
theorem markDispatch_eligible_mem (f : Ant → String) (k : ℕ) (as : List Ant)
    (b : Ant) (hb : b ∈ markDispatch f k as) (hf : b.canForage = true) :
    b ∈ as := by
  induction as generalizing k with
  | nil => simp [markDispatch] at hb
  | cons a as ih =>
      cases k with
      | zero =>
          simp only [markDispatch] at hb
          exact hb
      | succ k =>
          by_cases h : a.canForage
          · simp only [markDispatch, h, if_true] at hb
            rcases List.mem_cons.mp hb with h1 | h1
            · rw [h1, canForage_dispatchMark] at hf
              exact absurd hf (by simp)
            · exact List.mem_cons_of_mem a (ih k h1)
          · simp only [markDispatch, h, if_false] at hb
            rcases List.mem_cons.mp hb with h1 | h1
            · exact h1 ▸ List.mem_cons_self a as
            · exact List.mem_cons_of_mem a (ih (k + 1) h1)

/-- Claim C2: the dispatch step fills at most the free concurrency slots;
with cap 3, no in-flight operations and 5 eligible agents it dispatches
exactly 3, the 2 undispatched eligible agents are the original untouched
idle agents with their cooldown unchanged, and (surviving the next decay)
they are still eligible after the next agent tick. -/
theorem C2_dispatch_cap (ants : List Ant) (targetOf : Ant → String)
    (h5 : ants.countP Ant.canForage = 5) :
    (∀ act : ℕ, (selectToDispatch ants act).length ≤
      (max 0 ((MAX_CONCURRENT_FETCHES : ℤ) - (act : ℤ))).toNat) ∧
    (selectToDispatch ants 0).length = 3 ∧
    (markDispatch targetOf 3 ants).countP Ant.canForage = 2 ∧
    (∀ b ∈ markDispatch targetOf 3 ants, b.canForage = true →
      b ∈ ants ∧ b.state = AntState.idle ∧ b.carrying = none ∧
        b.forageCooldown ≤ 0 ∧
        (ANT_ENERGY_DECAY_PER_TICK < b.energy → (Ant.tick b).canForage = true)) := by
  refine ⟨fun act => List.length_take_le _ _, ?_, ?_, ?_⟩
  · simp only [selectToDispatch, List.length_take, ← List.countP_eq_length_filter,
      h5]
    decide
  · rw [markDispatch_countP targetOf 3 ants, h5]
    decide
  · intro b hb hf
    have hmem := markDispatch_eligible_mem targetOf 3 ants b hb hf
    have hc := hf
    simp only [Ant.canForage, Bool.and_eq_true, decide_eq_true_eq,
      Option.isNone_iff_eq_none] at hc
    obtain ⟨⟨h1, h2⟩, h3⟩ := hc
    refine ⟨hmem, h3, h2, h1, ?_⟩
    intro he
    have hs : ¬(b.state = AntState.dead) := by rw [h3]; simp
    simp only [Ant.tick, if_neg hs]
    have hne : ¬(b.energy - ANT_ENERGY_DECAY_PER_TICK ≤ 0) := by linarith
    rw [if_neg hne]
    have hcool : ¬(0 < b.forageCooldown) := by omega
    simp [Ant.canForage, h1, h2, h3, hcool]

/-- Witness for C2: five freshly spawned idle workers, cap 3, no
in-flight operations. -/
theorem C2_dispatch_cap_witness :
    (selectToDispatch antsW2 0).length = 3 ∧
    (markDispatch (fun _ => "t") 3 antsW2).countP Ant.canForage = 2 := by
  have h := C2_dispatch_cap antsW2 (fun _ => "t") (by decide)
  exact ⟨h.2.1, h.2.2.1⟩

/-- Helper: every decision kept by `_parseDecisions` names a submitted
agent and a catalog food URL. -/
theorem parseDecisions_valid (parsed : Option (List RawDecision))
    (idleAnts : List Ant) (validUrls : List String) (i u : String)
    (h : parseDecisions parsed idleAnts validUrls i = some u) :
    (∃ a ∈ idleAnts, a.id = i) ∧ u ∈ validUrls := by
  cases parsed with
  | none => simp [parseDecisions] at h
  | some ds =>
      simp only [parseDecisions] at h
      have main : ∀ (l : List RawDecision) (acc : String → Option String),
          (∀ j v, acc j = some v →
            (∃ a ∈ idleAnts, a.id = j) ∧ v ∈ validUrls) →
          ∀ j v,
            (l.foldl (fun acc d =>
              if d.antId = "" ∨ d.targetUrl = "" then acc
              else if ¬ ∃ a ∈ idleAnts, a.id = d.antId then acc
              else if d.targetUrl ∉ validUrls then acc
              else fun x => if x = d.antId then some d.targetUrl else acc x) acc) j
              = some v →
            (∃ a ∈ idleAnts, a.id = j) ∧ v ∈ validUrls := by
        intro l
        induction l with
        | nil => intro acc hacc; exact hacc
        | cons d l ih =>
            intro acc hacc j v
            simp only [List.foldl_cons]
            apply ih
            intro j2 v2 hj2
            by_cases ha : d.antId = "" ∨ d.targetUrl = ""
            · rw [if_pos ha] at hj2
              exact hacc _ _ hj2
            · rw [if_neg ha] at hj2
              by_cases hb : ∃ a ∈ idleAnts, a.id = d.antId
              · rw [if_neg (not_not_intro hb)] at hj2
                by_cases hc : d.targetUrl ∈ validUrls
                · rw [if_neg (not_not_intro hc)] at hj2
                  have hj3 : (if j2 = d.antId then some d.targetUrl else acc j2) =
                      some v2 := hj2
                  by_cases hx : j2 = d.antId
                  · subst hx
                    rw [if_pos rfl] at hj3
                    injection hj3 with hj3
                    exact ⟨hb, hj3 ▸ hc⟩
                  · rw [if_neg hx] at hj3
                    exact hacc _ _ hj3
                · rw [if_pos hc] at hj2
                  exact hacc _ _ hj2
              · rw [if_pos hb] at hj2
                exact hacc _ _ hj2
      exact main ds (fun _ => none) (by intro j v hv; simp at hv) i u h

/-- Claim C7: under the external batch policy, a failed external call, a
parse failure, or an agent missing from the validated decision set all
fall back to the local weighted policy for that agent, and the dispatch
step still produces one dispatch per selected agent. -/
theorem C7_llm_fallback (toDispatch : List Ant)
    (ext : Except String (Option (List RawDecision)))
    (validUrls : List String) (localChoice : Ant → Option String) :
    (dispatchTargets toDispatch ext validUrls localChoice).length =
      toDispatch.length ∧
    (∀ s, ext = Except.error s →
      dispatchTargets toDispatch ext validUrls localChoice =
        toDispatch.map (fun a => (a, localChoice a))) ∧
    (ext = Except.ok none →
      dispatchTargets toDispatch ext validUrls localChoice =
        toDispatch.map (fun a => (a, localChoice a))) ∧
    (∀ parsed a, ext = Except.ok parsed → a ∈ toDispatch →
      parseDecisions parsed toDispatch validUrls a.id = none →
      (a, localChoice a) ∈ dispatchTargets toDispatch ext validUrls localChoice) ∧
    (∀ parsed i u, ext = Except.ok parsed →
      parseDecisions parsed toDispatch validUrls i = some u →
      (∃ a ∈ toDispatch, a.id = i) ∧ u ∈ validUrls) := by
  refine ⟨?_, ?_, ?_, ?_, ?_⟩
  · cases ext <;> simp [dispatchTargets]
  · intro s hs
    subst hs
    rfl
  · intro hs
    subst hs
    simp [dispatchTargets, parseDecisions]
  · intro parsed a hs ha hnone
    subst hs
    simp only [dispatchTargets]
    refine List.mem_map.mpr ⟨a, ha, ?_⟩
    rw [hnone]
  · intro parsed i u hs hp
    exact parseDecisions_valid parsed toDispatch validUrls i u hp

/-- Witness for C7: two agents, one validated decision for agent w1; the
second agent and the failing external call both fall back to the local
choice. -/
theorem C7_llm_fallback_witness :
    (dispatchTargets [antD1, antD2] (Except.ok (some [rawDecisionW]))
      ["https://food.example/a"] (fun _ => some "L")).length = 2 ∧
    dispatchTargets [antD1, antD2] (Except.error "boom")
      ["https://food.example/a"] (fun _ => some "L") =
      [antD1, antD2].map (fun a => (a, some "L")) ∧
    (antD2, some "L") ∈ dispatchTargets [antD1, antD2]
      (Except.ok (some [rawDecisionW])) ["https://food.example/a"]
      (fun _ => some "L") := by
  refine ⟨(C7_llm_fallback [antD1, antD2] (Except.ok (some [rawDecisionW]))
      ["https://food.example/a"] (fun _ => some "L")).1,
    (C7_llm_fallback [antD1, antD2] (Except.error "boom")
      ["https://food.example/a"] (fun _ => some "L")).2.1 "boom" rfl,
    (C7_llm_fallback [antD1, antD2] (Except.ok (some [rawDecisionW]))
      ["https://food.example/a"] (fun _ => some "L")).2.2.2.1
      (some [rawDecisionW]) antD2 rfl (by simp) ?_⟩
  decide

end AntLLM
